import Mathlib

/-!
Shallow embedding of the alerting pipeline of the LifeLink Health Monitor
web server (Node/Express/MongoDB), covering:

* `models/SensorData.js` — the `checkEmergencyConditions` instance method
  (threshold evaluator) over one sensor reading;
* `models/Alert.js` — the alert lifecycle methods `acknowledge`, `resolve`,
  `markAsFalsePositive`, `escalate`, the `needsEscalation` predicate, the
  `ageInMinutes` virtual, and the `pre-save` hook that seeds the default
  escalation rules from severity;
* `routes/alerts.js` — the route-level guards wrapped around those methods
  (only the acknowledge route checks the current status).

Numeric sensor values are modelled as rationals; timestamps are integers in
milliseconds since the epoch (the JS `Date.now()` scale), with
`Math.floor` division rendered as `Int.fdiv`.  A JavaScript field that may
be `undefined` is an `Option`; the truthiness guards of the source
(`x && x.value`, under which the number `0` is falsy) are translated
literally.  Presentation-only schema fields (titles, notification
bookkeeping, context snapshots) that none of the modelled code paths read
are omitted from the structures.
-/

namespace LifeLink

/-- Alert `type` enumeration of `models/Alert.js` (alertSchema.type.enum). -/
inductive AlertType
  | heart_rate_abnormal
  | spo2_low
  | temperature_abnormal
  | fall_detected
  | battery_low
  | device_offline
  | sensor_malfunction
  | emergency_button
  | location_outside_safe_zone
  | medication_reminder
  | inactivity_detected
  | panic_alert
deriving DecidableEq

/-- Alert `severity` enumeration of `models/Alert.js`. -/
inductive Severity
  | info
  | warning
  | critical
  | emergency
deriving DecidableEq

/-- The `value` field a classification carries: a number for the vital-sign
and battery rules, the boolean `true` for fall detection. -/
inductive AlertValue
  | num (q : ℚ)
  | flag (b : Bool)
deriving DecidableEq

/-- One element of the list returned by `checkEmergencyConditions`
(`models/SensorData.js`): type, severity, triggering value, message. -/
structure Classification where
  type : AlertType
  severity : Severity
  value : AlertValue
  message : String
deriving DecidableEq

/-- The fields of a `SensorData` document that `checkEmergencyConditions`
reads.  Each `Option ℚ` is the `value` subfield of the corresponding group
(`heartRate.value`, `spO2.value`, `bodyTemperature.value`,
`device.batteryLevel`); `fallDetected` is `motion.fallDetected`, `none`
when the whole `motion` group is absent. -/
structure SensorData where
  heartRate : Option ℚ
  spO2 : Option ℚ
  bodyTemperature : Option ℚ
  fallDetected : Option Bool
  batteryLevel : Option ℚ
deriving DecidableEq

/-- Heart-rate block of `checkEmergencyConditions`
(`models/SensorData.js` lines 139-149).  The JS guard
`this.heartRate && this.heartRate.value` makes the value `0` falsy, hence
the extra `v ≠ 0` test. -/
def heartRateEmergency (d : SensorData) : List Classification :=
  match d.heartRate with
  | none => []
  | some v =>
    if v ≠ 0 then
      if v < 50 ∨ v > 120 then
        [{ type := .heart_rate_abnormal
         , severity := if v < 40 ∨ v > 140 then .critical else .warning
         , value := .num v
         , message := "Heart rate " ++ toString v ++ " BPM is "
             ++ (if v < 50 then "too low" else "too high") }]
      else []
    else []

/-- SpO2 block of `checkEmergencyConditions` (lines 151-161). -/
def spO2Emergency (d : SensorData) : List Classification :=
  match d.spO2 with
  | none => []
  | some v =>
    if v ≠ 0 then
      if v < 95 then
        [{ type := .spo2_low
         , severity := if v < 90 then .critical else .warning
         , value := .num v
         , message := "Blood oxygen level " ++ toString v ++ "% is dangerously low" }]
      else []
    else []

/-- Body-temperature block of `checkEmergencyConditions` (lines 163-173). -/
def temperatureEmergency (d : SensorData) : List Classification :=
  match d.bodyTemperature with
  | none => []
  | some v =>
    if v ≠ 0 then
      if v > 38.5 ∨ v < 35.5 then
        [{ type := .temperature_abnormal
         , severity := if v > 40 ∨ v < 35 then .critical else .warning
         , value := .num v
         , message := "Body temperature " ++ toString v ++ "C is "
             ++ (if v > 38.5 then "too high" else "too low") }]
      else []
    else []

/-- Fall-detection block of `checkEmergencyConditions` (lines 175-183):
fires when `this.motion && this.motion.fallDetected` is truthy. -/
def fallEmergency (d : SensorData) : List Classification :=
  match d.fallDetected with
  | some true =>
    [{ type := .fall_detected
     , severity := .critical
     , value := .flag true
     , message := "Fall detected! Immediate attention required." }]
  | _ => []

/-- Battery block of `checkEmergencyConditions` (lines 185-193).  The JS
guard `this.device && this.device.batteryLevel && this.device.batteryLevel < 10`
again makes battery level `0` falsy. -/
def batteryEmergency (d : SensorData) : List Classification :=
  match d.batteryLevel with
  | none => []
  | some v =>
    if v ≠ 0 then
      if v < 10 then
        [{ type := .battery_low
         , severity := if v < 5 then .critical else .warning
         , value := .num v
         , message := "Device battery level is critically low: " ++ toString v ++ "%" }]
      else []
    else []

/-- `checkEmergencyConditions` (`models/SensorData.js` lines 136-196):
the five rule blocks push onto one `emergencies` array in source order. -/
def checkEmergencyConditions (d : SensorData) : List Classification :=
  heartRateEmergency d ++ spO2Emergency d ++ temperatureEmergency d
    ++ fallEmergency d ++ batteryEmergency d

/-- The five rule blocks, in the order the source evaluates them. -/
def emergencyRules : List (SensorData → List Classification) :=
  [heartRateEmergency, spO2Emergency, temperatureEmergency, fallEmergency,
   batteryEmergency]

/-- Evaluation of the rule blocks in an arbitrary order, concatenating the
classifications each block produces. -/
def evalRules (order : List (SensorData → List Classification))
    (d : SensorData) : List Classification :=
  (order.map (fun r => r d)).flatten

theorem checkEmergencyConditions_eq_evalRules (d : SensorData) :
    checkEmergencyConditions d = evalRules emergencyRules d := by
  simp [checkEmergencyConditions, evalRules, emergencyRules]

/-- C1: for every reading in which every present field is nominal —
heart-rate in [50,120], SpO2 at least 95, temperature in [35.5,38.5], fall
flag false, battery at least 15 — `checkEmergencyConditions` returns the
empty classification list. -/
theorem nominal_reading_empty (d : SensorData)
    (hhr : ∀ v : ℚ, d.heartRate = some v → 50 ≤ v ∧ v ≤ 120)
    (hsp : ∀ v : ℚ, d.spO2 = some v → 95 ≤ v)
    (htp : ∀ v : ℚ, d.bodyTemperature = some v → 35.5 ≤ v ∧ v ≤ 38.5)
    (hfl : ∀ b : Bool, d.fallDetected = some b → b = false)
    (hbt : ∀ v : ℚ, d.batteryLevel = some v → 15 ≤ v) :
    checkEmergencyConditions d = [] := by
  have h1 : heartRateEmergency d = [] := by
    unfold heartRateEmergency
    cases h : d.heartRate with
    | none => rfl
    | some v =>
      obtain ⟨hlo, hhi⟩ := hhr v h
      have hc : ¬(v < 50 ∨ v > 120) := by push_neg; exact ⟨hlo, hhi⟩
      simp [hc]
  have h2 : spO2Emergency d = [] := by
    unfold spO2Emergency
    cases h : d.spO2 with
    | none => rfl
    | some v =>
      have hlo := hsp v h
      have hc : ¬ v < 95 := by linarith
      simp [hc]
  have h3 : temperatureEmergency d = [] := by
    unfold temperatureEmergency
    cases h : d.bodyTemperature with
    | none => rfl
    | some v =>
      obtain ⟨hlo, hhi⟩ := htp v h
      have hc : ¬(v > 38.5 ∨ v < 35.5) := by push_neg; exact ⟨hhi, hlo⟩
      simp [hc]
  have h4 : fallEmergency d = [] := by
    unfold fallEmergency
    cases h : d.fallDetected with
    | none => rfl
    | some b =>
      have hb := hfl b h
      subst hb
      rfl
  have h5 : batteryEmergency d = [] := by
    unfold batteryEmergency
    cases h : d.batteryLevel with
    | none => rfl
    | some v =>
      have hlo := hbt v h
      have hc : ¬ v < 10 := by linarith
      simp [hc]
  simp [checkEmergencyConditions, h1, h2, h3, h4, h5]

/-- Witness for C1 at a concrete nominal reading. -/
theorem nominal_reading_empty_w :
    checkEmergencyConditions ⟨some 70, some 98, some 37, some false, some 80⟩ = [] :=
  nominal_reading_empty ⟨some 70, some 98, some 37, some false, some 80⟩
    (by rintro v hv; injection hv with hv; subst hv; constructor <;> norm_num)
    (by rintro v hv; injection hv with hv; subst hv; norm_num)
    (by rintro v hv; injection hv with hv; subst hv; constructor <;> norm_num)
    (by rintro b hb; injection hb with hb; exact hb.symm)
    (by rintro v hv; injection hv with hv; subst hv; norm_num)

/-- C2: heart-rate 45 (other fields nominal) yields exactly one
classification of type `heart_rate_abnormal` and severity `warning`;
heart-rate 35 the same type with severity `critical`; SpO2 92 yields
exactly one `spo2_low` of severity `warning`; SpO2 85 the same type with
severity `critical`. -/
theorem boundary_readings_single_classification :
    checkEmergencyConditions ⟨some 45, some 98, none, some false, some 80⟩
      = [{ type := .heart_rate_abnormal, severity := .warning, value := .num 45
         , message := "Heart rate 45 BPM is too low" }]
    ∧ checkEmergencyConditions ⟨some 35, some 98, none, some false, some 80⟩
      = [{ type := .heart_rate_abnormal, severity := .critical, value := .num 35
         , message := "Heart rate 35 BPM is too low" }]
    ∧ checkEmergencyConditions ⟨some 70, some 92, none, some false, some 80⟩
      = [{ type := .spo2_low, severity := .warning, value := .num 92
         , message := "Blood oxygen level 92% is dangerously low" }]
    ∧ checkEmergencyConditions ⟨some 70, some 85, none, some false, some 80⟩
      = [{ type := .spo2_low, severity := .critical, value := .num 85
         , message := "Blood oxygen level 85% is dangerously low" }] := by
  refine ⟨?_, ?_, ?_, ?_⟩ <;> decide

theorem type_of_mem_heartRateEmergency {d : SensorData} {c : Classification}
    (h : c ∈ heartRateEmergency d) : c.type = .heart_rate_abnormal := by
  unfold heartRateEmergency at h
  cases hv : d.heartRate with
  | none => rw [hv] at h; simp at h
  | some v => rw [hv] at h; dsimp only at h; split_ifs at h <;> simp_all

theorem type_of_mem_spO2Emergency {d : SensorData} {c : Classification}
    (h : c ∈ spO2Emergency d) : c.type = .spo2_low := by
  unfold spO2Emergency at h
  cases hv : d.spO2 with
  | none => rw [hv] at h; simp at h
  | some v => rw [hv] at h; dsimp only at h; split_ifs at h <;> simp_all

theorem type_of_mem_temperatureEmergency {d : SensorData} {c : Classification}
    (h : c ∈ temperatureEmergency d) : c.type = .temperature_abnormal := by
  unfold temperatureEmergency at h
  cases hv : d.bodyTemperature with
  | none => rw [hv] at h; simp at h
  | some v => rw [hv] at h; dsimp only at h; split_ifs at h <;> simp_all

theorem type_of_mem_fallEmergency {d : SensorData} {c : Classification}
    (h : c ∈ fallEmergency d) : c.type = .fall_detected := by
  unfold fallEmergency at h
  cases hv : d.fallDetected with
  | none => rw [hv] at h; simp at h
  | some b => cases b <;> rw [hv] at h <;> simp_all

theorem type_of_mem_batteryEmergency {d : SensorData} {c : Classification}
    (h : c ∈ batteryEmergency d) : c.type = .battery_low := by
  unfold batteryEmergency at h
  cases hv : d.batteryLevel with
  | none => rw [hv] at h; simp at h
  | some v => rw [hv] at h; dsimp only at h; split_ifs at h <;> simp_all

theorem mem_checkEmergencyConditions_iff {d : SensorData} {c : Classification} :
    c ∈ checkEmergencyConditions d ↔
      c ∈ heartRateEmergency d ∨ c ∈ spO2Emergency d ∨ c ∈ temperatureEmergency d
        ∨ c ∈ fallEmergency d ∨ c ∈ batteryEmergency d := by
  simp [checkEmergencyConditions, List.mem_append, or_assoc]

/-- C3: a reading breaching exactly the heart-rate and battery rules
(heart-rate 200, battery 3, other fields nominal) yields exactly two
classifications, one per breached rule; and for every permutation of the
five rule blocks, evaluating the blocks in that order yields a permutation
of the same classification list (the result as a set is order-independent). -/
theorem two_rule_breach_independent :
    checkEmergencyConditions ⟨some 200, some 98, none, some false, some 3⟩
      = [{ type := .heart_rate_abnormal, severity := .critical, value := .num 200
         , message := "Heart rate 200 BPM is too high" }
        ,{ type := .battery_low, severity := .critical, value := .num 3
         , message := "Device battery level is critically low: 3%" }]
    ∧ (checkEmergencyConditions ⟨some 200, some 98, none, some false, some 3⟩).length = 2
    ∧ ∀ order, List.Perm order emergencyRules →
        List.Perm (evalRules order ⟨some 200, some 98, none, some false, some 3⟩)
          (checkEmergencyConditions ⟨some 200, some 98, none, some false, some 3⟩) := by
  refine ⟨by decide, by decide, ?_⟩
  intro order hperm
  have h := (hperm.map (fun r => r ⟨some 200, some 98, none, some false, some 3⟩)).flatten
  rw [checkEmergencyConditions_eq_evalRules]
  exact h

/-- Witness for C3: the quantified order-independence part instantiated at
the source evaluation order itself. -/
theorem two_rule_breach_independent_w :
    List.Perm (evalRules emergencyRules ⟨some 200, some 98, none, some false, some 3⟩)
      (checkEmergencyConditions ⟨some 200, some 98, none, some false, some 3⟩) :=
  two_rule_breach_independent.2.2 emergencyRules (List.Perm.refl emergencyRules)

/-- C4 counterexample: a reading whose battery level is present with value
0 — which is below 10 — produces no classification at all, because the JS
truthiness guard treats a zero battery level as absent.  This refutes the
claim that for every reading with battery level present the battery_low
classification fires iff the level is below 10. -/
theorem battery_present_zero_no_fire :
    (SensorData.batteryLevel ⟨none, none, none, none, some 0⟩).isSome = true
    ∧ (0:ℚ) < 10
    ∧ checkEmergencyConditions ⟨none, none, none, none, some 0⟩ = [] :=
  ⟨rfl, by norm_num, by decide⟩

/-- C4 amended: for every reading whose battery level is present and
nonzero, a battery_low classification fires iff the level is below 10, and
any battery_low classification produced carries severity critical if the
level is below 5 and warning otherwise. -/
theorem battery_low_fires_iff (d : SensorData) (v : ℚ)
    (hb : d.batteryLevel = some v) (hnz : v ≠ 0) :
    ((∃ c ∈ checkEmergencyConditions d, c.type = .battery_low) ↔ v < 10)
    ∧ ∀ c ∈ checkEmergencyConditions d, c.type = .battery_low →
        c.severity = (if v < 5 then Severity.critical else Severity.warning) := by
  have hbat : batteryEmergency d =
      if v < 10 then
        [{ type := .battery_low
         , severity := if v < 5 then .critical else .warning
         , value := .num v
         , message := "Device battery level is critically low: " ++ toString v ++ "%" }]
      else [] := by
    unfold batteryEmergency
    rw [hb]
    dsimp only
    rw [if_pos hnz]
  constructor
  · constructor
    · rintro ⟨c, hc, hty⟩
      rcases mem_checkEmergencyConditions_iff.mp hc with h | h | h | h | h
      · rw [type_of_mem_heartRateEmergency h] at hty; cases hty
      · rw [type_of_mem_spO2Emergency h] at hty; cases hty
      · rw [type_of_mem_temperatureEmergency h] at hty; cases hty
      · rw [type_of_mem_fallEmergency h] at hty; cases hty
      · rw [hbat] at h
        by_cases hlt : v < 10
        · exact hlt
        · rw [if_neg hlt] at h; simp at h
    · intro hlt
      refine ⟨{ type := .battery_low
              , severity := if v < 5 then Severity.critical else Severity.warning
              , value := .num v
              , message := "Device battery level is critically low: " ++ toString v ++ "%" }
            , ?_, rfl⟩
      refine mem_checkEmergencyConditions_iff.mpr (Or.inr (Or.inr (Or.inr (Or.inr ?_))))
      rw [hbat, if_pos hlt]
      exact List.mem_singleton.mpr rfl
  · intro c hc hty
    rcases mem_checkEmergencyConditions_iff.mp hc with h | h | h | h | h
    · rw [type_of_mem_heartRateEmergency h] at hty; cases hty
    · rw [type_of_mem_spO2Emergency h] at hty; cases hty
    · rw [type_of_mem_temperatureEmergency h] at hty; cases hty
    · rw [type_of_mem_fallEmergency h] at hty; cases hty
    · rw [hbat] at h
      by_cases hlt : v < 10
      · rw [if_pos hlt] at h
        rw [List.mem_singleton.mp h]
      · rw [if_neg hlt] at h; simp at h

/-- Witness for the amended C4 at a reading with battery level 3. -/
theorem battery_low_fires_iff_w :
    ((∃ c ∈ checkEmergencyConditions ⟨none, none, none, none, some 3⟩,
        c.type = .battery_low) ↔ (3:ℚ) < 10)
    ∧ ∀ c ∈ checkEmergencyConditions ⟨none, none, none, none, some 3⟩,
        c.type = .battery_low →
          c.severity = (if (3:ℚ) < 5 then Severity.critical else Severity.warning) :=
  battery_low_fires_iff ⟨none, none, none, none, some 3⟩ 3 rfl (by norm_num)

/-- C10: the truthiness presence checks of `checkEmergencyConditions`
treat a zero heart-rate value, zero SpO2 value, or zero battery level as
absent, so no heart_rate_abnormal, spo2_low, or battery_low classification
is produced for that field even though 0 lies below every minimum
threshold. -/
theorem zero_value_treated_as_absent (d : SensorData) :
    (d.heartRate = some 0 →
      ∀ c ∈ checkEmergencyConditions d, c.type ≠ .heart_rate_abnormal)
    ∧ (d.spO2 = some 0 →
      ∀ c ∈ checkEmergencyConditions d, c.type ≠ .spo2_low)
    ∧ (d.batteryLevel = some 0 →
      ∀ c ∈ checkEmergencyConditions d, c.type ≠ .battery_low) := by
  refine ⟨?_, ?_, ?_⟩
  · intro h0 c hc hty
    rcases mem_checkEmergencyConditions_iff.mp hc with h | h | h | h | h
    · unfold heartRateEmergency at h
      rw [h0] at h
      simp at h
    · rw [type_of_mem_spO2Emergency h] at hty; cases hty
    · rw [type_of_mem_temperatureEmergency h] at hty; cases hty
    · rw [type_of_mem_fallEmergency h] at hty; cases hty
    · rw [type_of_mem_batteryEmergency h] at hty; cases hty
  · intro h0 c hc hty
    rcases mem_checkEmergencyConditions_iff.mp hc with h | h | h | h | h
    · rw [type_of_mem_heartRateEmergency h] at hty; cases hty
    · unfold spO2Emergency at h
      rw [h0] at h
      simp at h
    · rw [type_of_mem_temperatureEmergency h] at hty; cases hty
    · rw [type_of_mem_fallEmergency h] at hty; cases hty
    · rw [type_of_mem_batteryEmergency h] at hty; cases hty
  · intro h0 c hc hty
    rcases mem_checkEmergencyConditions_iff.mp hc with h | h | h | h | h
    · rw [type_of_mem_heartRateEmergency h] at hty; cases hty
    · rw [type_of_mem_spO2Emergency h] at hty; cases hty
    · rw [type_of_mem_temperatureEmergency h] at hty; cases hty
    · rw [type_of_mem_fallEmergency h] at hty; cases hty
    · unfold batteryEmergency at h
      rw [h0] at h
      simp at h

/-- Witness for C10 at a reading with zero heart rate, SpO2, and battery. -/
theorem zero_value_treated_as_absent_w :
    (∀ c ∈ checkEmergencyConditions ⟨some 0, some 0, none, none, some 0⟩,
      c.type ≠ AlertType.heart_rate_abnormal)
    ∧ (∀ c ∈ checkEmergencyConditions ⟨some 0, some 0, none, none, some 0⟩,
      c.type ≠ AlertType.spo2_low)
    ∧ (∀ c ∈ checkEmergencyConditions ⟨some 0, some 0, none, none, some 0⟩,
      c.type ≠ AlertType.battery_low) :=
  ⟨(zero_value_treated_as_absent ⟨some 0, some 0, none, none, some 0⟩).1 rfl,
   (zero_value_treated_as_absent ⟨some 0, some 0, none, none, some 0⟩).2.1 rfl,
   (zero_value_treated_as_absent ⟨some 0, some 0, none, none, some 0⟩).2.2 rfl⟩

/-- Alert `status` enumeration of `models/Alert.js`. -/
inductive AlertStatus
  | active
  | acknowledged
  | resolved
  | false_positive
deriving DecidableEq

/-- The `response` subdocument of an Alert: who acknowledged or resolved
it, when, the response time in seconds, and free-text notes. -/
structure AlertResponse where
  acknowledgedBy : Option String := none
  acknowledgedAt : Option ℤ := none
  resolvedBy : Option String := none
  resolvedAt : Option ℤ := none
  responseTime : Option ℤ := none
  notes : Option String := none
deriving DecidableEq

/-- One entry of `escalation.escalationRules`: a level, a time threshold
in minutes, and contact addresses. -/
structure EscalationRule where
  level : ℕ
  timeThreshold : ℤ
  contacts : List String := []
deriving DecidableEq

/-- The `escalation` subdocument of an Alert, with the schema defaults of
`models/Alert.js` (level 1, no rules, max level 3). -/
structure Escalation where
  level : ℕ := 1
  escalatedAt : Option ℤ := none
  escalationRules : List EscalationRule := []
  maxEscalationLevel : ℕ := 3
deriving DecidableEq

/-- The fields of an Alert document that the lifecycle methods and the
pre-save hook read or write.  `createdAt` is the creation timestamp in
milliseconds since the epoch.  Presentation fields (device identifiers,
title, message, notification bookkeeping, context snapshot) are not read
by any modelled code path and are omitted. -/
structure Alert where
  severity : Severity := .warning
  status : AlertStatus := .active
  createdAt : ℤ
  response : AlertResponse := {}
  escalation : Escalation := {}
deriving DecidableEq

/-- `alert.acknowledge(acknowledgedBy, notes)` (`models/Alert.js` lines
199-210).  `now` is the current time in milliseconds; the source computes
`responseTime = Math.floor((Date.now() - this.createdAt.getTime()) / 1000)`
and only stores nonempty notes (`if (notes)`). -/
def Alert.acknowledge (a : Alert) (now : ℤ) (acknowledgedBy : String)
    (notes : String) : Alert :=
  { a with
    status := .acknowledged
    response := { a.response with
      acknowledgedBy := some acknowledgedBy
      acknowledgedAt := some now
      responseTime := some (Int.fdiv (now - a.createdAt) 1000)
      notes := if notes ≠ "" then some notes else a.response.notes } }

/-- `alert.resolve(resolvedBy, notes)` (`models/Alert.js` lines 213-223):
sets status to resolved unconditionally and, when notes are nonempty,
appends them after a newline to the existing notes. -/
def Alert.resolve (a : Alert) (now : ℤ) (resolvedBy : String)
    (notes : String) : Alert :=
  { a with
    status := .resolved
    response := { a.response with
      resolvedBy := some resolvedBy
      resolvedAt := some now
      notes := if notes ≠ "" then
          some ((a.response.notes.getD "") ++ "\n" ++ notes)
        else a.response.notes } }

/-- `alert.markAsFalsePositive(markedBy, notes)` (`models/Alert.js` lines
226-233): sets status to false_positive unconditionally and always appends
the fixed prefix plus notes. -/
def Alert.markAsFalsePositive (a : Alert) (now : ℤ) (markedBy : String)
    (notes : String) : Alert :=
  { a with
    status := .false_positive
    response := { a.response with
      resolvedBy := some markedBy
      resolvedAt := some now
      notes := some ((a.response.notes.getD "")
        ++ "\nMarked as false positive: " ++ notes) } }

/-- `alert.escalate()` (`models/Alert.js` lines 236-243): if the current
escalation level is below the max, increment it and record the timestamp;
otherwise leave the alert unchanged.  No status check is performed. -/
def Alert.escalate (a : Alert) (now : ℤ) : Alert :=
  if a.escalation.level < a.escalation.maxEscalationLevel then
    { a with escalation := { a.escalation with
        level := a.escalation.level + 1
        escalatedAt := some now } }
  else a

/-- The `ageInMinutes` virtual (`models/Alert.js` lines 188-190):
`Math.floor((Date.now() - this.createdAt.getTime()) / 60000)`. -/
def Alert.ageInMinutes (a : Alert) (now : ℤ) : ℤ :=
  Int.fdiv (now - a.createdAt) 60000

/-- `alert.needsEscalation()` (`models/Alert.js` lines 246-256): false
unless the alert is active; looks up the first escalation rule for the
level one above the current one and compares the age in minutes against
its time threshold. -/
def Alert.needsEscalation (a : Alert) (now : ℤ) : Bool :=
  if a.status ≠ .active then false
  else
    match a.escalation.escalationRules.find?
        (fun rule => rule.level == a.escalation.level + 1) with
    | none => false
    | some rule => a.ageInMinutes now ≥ rule.timeThreshold

/-- Errors the alert routes of `routes/alerts.js` report: unknown alert id
(404), device access denied (403), and the acknowledge-specific check
`if (alert.status !== "active")` (400, "Alert is not in active status"). -/
inductive RouteError
  | notFound
  | accessDenied
  | invalidStatus
deriving DecidableEq

/-- `PUT /api/alerts/:alertId/acknowledge` (`routes/alerts.js`): rejects
when the alert is not in active status, otherwise applies
`alert.acknowledge`. -/
def acknowledgeRoute (a : Alert) (now : ℤ) (userId : String)
    (notes : String) : Except RouteError Alert :=
  if a.status ≠ .active then .error .invalidStatus
  else .ok (a.acknowledge now userId notes)

/-- `PUT /api/alerts/:alertId/resolve` (`routes/alerts.js`): applies
`alert.resolve` with no check of the current status. -/
def resolveRoute (a : Alert) (now : ℤ) (userId : String)
    (notes : String) : Except RouteError Alert :=
  .ok (a.resolve now userId notes)

/-- `PUT /api/alerts/:alertId/false-positive` (`routes/alerts.js`):
applies `alert.markAsFalsePositive` with no check of the current status. -/
def falsePositiveRoute (a : Alert) (now : ℤ) (userId : String)
    (notes : String) : Except RouteError Alert :=
  .ok (a.markAsFalsePositive now userId notes)

/-- The `pre('save')` hook of `models/Alert.js` (lines 338-372): on a new
document with no escalation rules, seed the rules from the severity; only
the default branch (severities other than emergency, critical, warning,
here exactly `info`) also lowers `maxEscalationLevel` to 2. -/
def preSaveEscalation (isNew : Bool) (a : Alert) : Alert :=
  if isNew ∧ a.escalation.escalationRules = [] then
    match a.severity with
    | .emergency =>
      { a with escalation := { a.escalation with
          escalationRules := [⟨1, 0, []⟩, ⟨2, 2, []⟩, ⟨3, 5, []⟩] } }
    | .critical =>
      { a with escalation := { a.escalation with
          escalationRules := [⟨1, 0, []⟩, ⟨2, 5, []⟩, ⟨3, 15, []⟩] } }
    | .warning =>
      { a with escalation := { a.escalation with
          escalationRules := [⟨1, 0, []⟩, ⟨2, 15, []⟩, ⟨3, 60, []⟩] } }
    | .info =>
      { a with escalation := { a.escalation with
          escalationRules := [⟨1, 0, []⟩, ⟨2, 60, []⟩]
          maxEscalationLevel := 2 } }
  else a

/-- C5: on an active alert, the acknowledge route succeeds, sets status to
acknowledged, records the acknowledging actor and timestamp, and sets
responseTime to the whole number of seconds between creation and
acknowledgement; on an alert that is not active it fails with the
state-conflict error (HTTP 400, "Alert is not in active status") without
applying the acknowledge method, so the stored alert is unchanged. -/
theorem acknowledge_semantics (a : Alert) (now : ℤ) (userId notes : String) :
    (a.status = .active →
      acknowledgeRoute a now userId notes = .ok (a.acknowledge now userId notes)
      ∧ (a.acknowledge now userId notes).status = .acknowledged
      ∧ (a.acknowledge now userId notes).response.acknowledgedBy = some userId
      ∧ (a.acknowledge now userId notes).response.acknowledgedAt = some now
      ∧ (a.acknowledge now userId notes).response.responseTime
          = some (Int.fdiv (now - a.createdAt) 1000))
    ∧ (a.status ≠ .active →
      acknowledgeRoute a now userId notes = .error .invalidStatus) := by
  constructor
  · intro h
    refine ⟨?_, rfl, rfl, rfl, rfl⟩
    simp [acknowledgeRoute, h]
  · intro h
    simp [acknowledgeRoute, h]

/-- Witness for C5: an active alert created at time 0 acknowledged at time
5000 ms, and an already-acknowledged alert rejected. -/
theorem acknowledge_semantics_w :
    acknowledgeRoute { createdAt := 0 } 5000 "operator" ""
        = .ok (Alert.acknowledge { createdAt := 0 } 5000 "operator" "")
    ∧ (Alert.acknowledge ({ createdAt := 0 } : Alert) 5000 "operator" "").response.responseTime
        = some (Int.fdiv (5000 - ({ createdAt := 0 } : Alert).createdAt) 1000)
    ∧ acknowledgeRoute { createdAt := 0, status := AlertStatus.acknowledged } 9000 "operator" ""
        = .error RouteError.invalidStatus :=
  ⟨((acknowledge_semantics { createdAt := 0 } 5000 "operator" "").1 rfl).1,
   ((acknowledge_semantics { createdAt := 0 } 5000 "operator" "").1 rfl).2.2.2.2,
   (acknowledge_semantics { createdAt := 0, status := AlertStatus.acknowledged }
      9000 "operator" "").2 (by decide)⟩

/-- C6 counterexample: the false-positive route performs no status check,
so it succeeds on an alert that is already in the terminal state resolved
and moves it to false_positive — contradicting the claim that no lifecycle
operation moves an alert out of resolved or false_positive and that a
terminal alert is unchanged by further lifecycle calls. -/
theorem terminal_state_not_preserved :
    ({ createdAt := 0, status := AlertStatus.resolved } : Alert).status = AlertStatus.resolved
    ∧ falsePositiveRoute { createdAt := 0, status := AlertStatus.resolved } 1000 "operator" ""
        = .ok (Alert.markAsFalsePositive
            { createdAt := 0, status := AlertStatus.resolved } 1000 "operator" "")
    ∧ (Alert.markAsFalsePositive ({ createdAt := 0, status := AlertStatus.resolved } : Alert)
        1000 "operator" "").status = AlertStatus.false_positive :=
  ⟨rfl, rfl, rfl⟩

/-- C6 amended: only the acknowledge route is guarded (it succeeds exactly
on active alerts); the resolve and false-positive routes are unguarded and
succeed from any state, setting status to resolved and false_positive
respectively; no lifecycle operation ever sets status back to active. -/
theorem lifecycle_transitions (a : Alert) (now : ℤ) (userId notes : String) :
    ((∃ a2, acknowledgeRoute a now userId notes = .ok a2) ↔ a.status = .active)
    ∧ resolveRoute a now userId notes = .ok (a.resolve now userId notes)
    ∧ (a.resolve now userId notes).status = .resolved
    ∧ falsePositiveRoute a now userId notes = .ok (a.markAsFalsePositive now userId notes)
    ∧ (a.markAsFalsePositive now userId notes).status = .false_positive
    ∧ (a.acknowledge now userId notes).status = .acknowledged := by
  refine ⟨?_, rfl, rfl, rfl, rfl, rfl⟩
  constructor
  · rintro ⟨a2, h⟩
    by_contra hne
    unfold acknowledgeRoute at h
    rw [if_pos hne] at h
    cases h
  · intro h
    exact ⟨a.acknowledge now userId notes, by simp [acknowledgeRoute, h]⟩

/-- Witness for the amended C6: the resolve route succeeds on an alert
already marked false_positive and moves it to resolved. -/
theorem lifecycle_transitions_w :
    resolveRoute { createdAt := 0, status := AlertStatus.false_positive } 500 "operator" "n"
        = .ok (Alert.resolve { createdAt := 0, status := AlertStatus.false_positive } 500 "operator" "n")
    ∧ (Alert.resolve ({ createdAt := 0, status := AlertStatus.false_positive } : Alert)
        500 "operator" "n").status = AlertStatus.resolved :=
  ⟨(lifecycle_transitions { createdAt := 0, status := AlertStatus.false_positive }
      500 "operator" "n").2.1,
   (lifecycle_transitions { createdAt := 0, status := AlertStatus.false_positive }
      500 "operator" "n").2.2.1⟩

/-- C7: for a newly created alert whose escalation subdocument still has
the schema defaults (no rules supplied, level 1, max level 3), the
pre-save hook seeds the escalation rules from the severity, lowering the
max level to 2 only in the default (info) branch. -/
theorem default_escalation_rules (a : Alert) (h : a.escalation = {}) :
    (a.severity = .emergency →
      (preSaveEscalation true a).escalation.escalationRules
          = [⟨1, 0, []⟩, ⟨2, 2, []⟩, ⟨3, 5, []⟩]
      ∧ (preSaveEscalation true a).escalation.maxEscalationLevel = 3)
    ∧ (a.severity = .critical →
      (preSaveEscalation true a).escalation.escalationRules
          = [⟨1, 0, []⟩, ⟨2, 5, []⟩, ⟨3, 15, []⟩]
      ∧ (preSaveEscalation true a).escalation.maxEscalationLevel = 3)
    ∧ (a.severity = .warning →
      (preSaveEscalation true a).escalation.escalationRules
          = [⟨1, 0, []⟩, ⟨2, 15, []⟩, ⟨3, 60, []⟩]
      ∧ (preSaveEscalation true a).escalation.maxEscalationLevel = 3)
    ∧ (a.severity = .info →
      (preSaveEscalation true a).escalation.escalationRules
          = [⟨1, 0, []⟩, ⟨2, 60, []⟩]
      ∧ (preSaveEscalation true a).escalation.maxEscalationLevel = 2) := by
  refine ⟨?_, ?_, ?_, ?_⟩ <;> intro hs <;> simp [preSaveEscalation, h, hs]

/-- Witness for C7 at concrete alerts of severities emergency, warning,
and info. -/
theorem default_escalation_rules_w :
    (preSaveEscalation true { severity := Severity.emergency, createdAt := 0 }).escalation.escalationRules
        = [⟨1, 0, []⟩, ⟨2, 2, []⟩, ⟨3, 5, []⟩]
    ∧ (preSaveEscalation true { severity := Severity.emergency, createdAt := 0 }).escalation.maxEscalationLevel = 3
    ∧ (preSaveEscalation true { severity := Severity.warning, createdAt := 0 }).escalation.escalationRules
        = [⟨1, 0, []⟩, ⟨2, 15, []⟩, ⟨3, 60, []⟩]
    ∧ (preSaveEscalation true { severity := Severity.info, createdAt := 0 }).escalation.maxEscalationLevel = 2 :=
  ⟨((default_escalation_rules { severity := Severity.emergency, createdAt := 0 } rfl).1 rfl).1,
   ((default_escalation_rules { severity := Severity.emergency, createdAt := 0 } rfl).1 rfl).2,
   ((default_escalation_rules { severity := Severity.warning, createdAt := 0 } rfl).2.2.1 rfl).1,
   ((default_escalation_rules { severity := Severity.info, createdAt := 0 } rfl).2.2.2 rfl).2⟩

/-- C8: `needsEscalation` is true exactly when the alert is active, a rule
exists for the level one above the current escalation level, and the age
in minutes since creation is at least that rule's time threshold; in
particular it is false for a resolved alert.  The rule list is assumed to
carry distinct levels, as every list the pre-save hook seeds does; the
source otherwise uses the first matching rule. -/
theorem needsEscalation_iff (a : Alert) (now : ℤ)
    (hnd : (a.escalation.escalationRules.map EscalationRule.level).Nodup) :
    (a.needsEscalation now = true ↔
      a.status = .active ∧ ∃ r ∈ a.escalation.escalationRules,
        r.level = a.escalation.level + 1 ∧ a.ageInMinutes now ≥ r.timeThreshold)
    ∧ (a.status = .resolved → a.needsEscalation now = false) := by
  have hmain : a.needsEscalation now = true ↔
      a.status = .active ∧ ∃ r ∈ a.escalation.escalationRules,
        r.level = a.escalation.level + 1 ∧ a.ageInMinutes now ≥ r.timeThreshold := by
    unfold Alert.needsEscalation
    by_cases hst : a.status = .active
    · rw [if_neg (by simp [hst])]
      cases hf : a.escalation.escalationRules.find?
          (fun rule => rule.level == a.escalation.level + 1) with
      | none =>
        simp only [Bool.false_eq_true, false_iff]
        rintro ⟨-, r, hr, hlvl, -⟩
        have := List.find?_eq_none.mp hf r hr
        simp [hlvl] at this
      | some r =>
        simp only [decide_eq_true_eq]
        constructor
        · intro hage
          refine ⟨hst, r, List.mem_of_find?_eq_some hf, ?_, hage⟩
          have := List.find?_some hf
          simpa using this
        · rintro ⟨-, r2, hr2, hlvl2, hage2⟩
          have hrmem := List.mem_of_find?_eq_some hf
          have hrlvl : r.level = a.escalation.level + 1 := by
            have := List.find?_some hf
            simpa using this
          have : r2 = r :=
            List.inj_on_of_nodup_map hnd hr2 hrmem (by rw [hlvl2, hrlvl])
          rw [← this]
          exact hage2
    · rw [if_pos hst]
      simp [hst]
  refine ⟨hmain, ?_⟩
  intro hres
  unfold Alert.needsEscalation
  rw [if_pos (by simp [hres])]

/-- Witness for C8: an active emergency-seeded alert three minutes old
needs escalation from level 1 (the level-2 rule has threshold 2). -/
theorem needsEscalation_iff_w :
    (Alert.needsEscalation
        { createdAt := 0
        , escalation := { escalationRules := [⟨1, 0, []⟩, ⟨2, 2, []⟩, ⟨3, 5, []⟩] } }
        180000 = true ↔
      ({ createdAt := 0
       , escalation := { escalationRules := [⟨1, 0, []⟩, ⟨2, 2, []⟩, ⟨3, 5, []⟩] } } : Alert).status
          = AlertStatus.active
      ∧ ∃ r ∈ [(⟨1, 0, []⟩ : EscalationRule), ⟨2, 2, []⟩, ⟨3, 5, []⟩],
          r.level = 1 + 1
          ∧ Alert.ageInMinutes
              { createdAt := 0
              , escalation := { escalationRules := [⟨1, 0, []⟩, ⟨2, 2, []⟩, ⟨3, 5, []⟩] } }
              180000 ≥ r.timeThreshold) :=
  (needsEscalation_iff
    { createdAt := 0
    , escalation := { escalationRules := [⟨1, 0, []⟩, ⟨2, 2, []⟩, ⟨3, 5, []⟩] } }
    180000 (by decide)).1

/-- C9 counterexample: `escalate` performs no status check, so it
escalates an alert in status resolved (level 1 to 2, timestamp recorded) —
contradicting the claim that escalate is permitted only while the alert is
active. -/
theorem escalate_on_resolved :
    ({ createdAt := 0, status := AlertStatus.resolved } : Alert).status = AlertStatus.resolved
    ∧ (Alert.escalate { createdAt := 0, status := AlertStatus.resolved } 7000).escalation.level = 2
    ∧ (Alert.escalate { createdAt := 0, status := AlertStatus.resolved } 7000).escalation.escalatedAt
        = some 7000 := by
  refine ⟨rfl, ?_, ?_⟩ <;> decide

/-- Operations of the alert lifecycle, as exposed by `routes/alerts.js`
plus the (uncalled-in-source) `escalate` method. -/
inductive AlertOp
  | ackOp (now : ℤ) (userId notes : String)
  | resolveOp (now : ℤ) (userId notes : String)
  | fpOp (now : ℤ) (userId notes : String)
  | escOp (now : ℤ)

/-- Apply one lifecycle operation; a rejected acknowledge leaves the
stored document unchanged. -/
def applyOp (a : Alert) : AlertOp → Alert
  | .ackOp now u n =>
    match acknowledgeRoute a now u n with
    | .ok a2 => a2
    | .error _ => a
  | .resolveOp now u n => a.resolve now u n
  | .fpOp now u n => a.markAsFalsePositive now u n
  | .escOp now => a.escalate now

/-- Apply a sequence of lifecycle operations in order. -/
def applyOps (a : Alert) (ops : List AlertOp) : Alert :=
  ops.foldl applyOp a

theorem applyOp_level_le (a : Alert) (op : AlertOp)
    (h : a.escalation.level ≤ a.escalation.maxEscalationLevel) :
    (applyOp a op).escalation.level ≤ (applyOp a op).escalation.maxEscalationLevel := by
  cases op with
  | ackOp now u n =>
    by_cases hst : a.status = .active <;>
      simp [applyOp, acknowledgeRoute, hst, Alert.acknowledge] <;> exact h
  | resolveOp now u n => exact h
  | fpOp now u n => exact h
  | escOp now =>
    show (a.escalate now).escalation.level ≤ (a.escalate now).escalation.maxEscalationLevel
    unfold Alert.escalate
    by_cases hlt : a.escalation.level < a.escalation.maxEscalationLevel
    · rw [if_pos hlt]
      exact hlt
    · rw [if_neg hlt]
      exact h

theorem applyOps_level_le (ops : List AlertOp) :
    ∀ a : Alert, a.escalation.level ≤ a.escalation.maxEscalationLevel →
      (applyOps a ops).escalation.level ≤ (applyOps a ops).escalation.maxEscalationLevel := by
  induction ops with
  | nil => intro a h; exact h
  | cons op rest ih =>
    intro a h
    exact ih (applyOp a op) (applyOp_level_le a op h)

/-- C9 amended: `escalate` is not restricted to active alerts; whenever
the current level is below `maxEscalationLevel` it increments the level by
exactly 1 and records the escalation timestamp, and after any sequence of
lifecycle operations the escalation level never exceeds the max level
(given that it starts no higher, as the schema defaults guarantee). -/
theorem escalation_level_bounded (a : Alert) (ops : List AlertOp)
    (h : a.escalation.level ≤ a.escalation.maxEscalationLevel) :
    (applyOps a ops).escalation.level ≤ (applyOps a ops).escalation.maxEscalationLevel
    ∧ ∀ now : ℤ, a.escalation.level < a.escalation.maxEscalationLevel →
        (a.escalate now).escalation.level = a.escalation.level + 1
        ∧ (a.escalate now).escalation.escalatedAt = some now := by
  refine ⟨applyOps_level_le ops a h, ?_⟩
  intro now hlt
  unfold Alert.escalate
  rw [if_pos hlt]
  exact ⟨rfl, rfl⟩

/-- Witness for the amended C9: a fresh alert escalated three times and
then resolved stays within its max level, and one escalation from level 1
yields level 2 with the timestamp recorded. -/
theorem escalation_level_bounded_w :
    (applyOps { createdAt := 0 }
        [AlertOp.escOp 60000, AlertOp.escOp 120000, AlertOp.escOp 180000,
         AlertOp.resolveOp 240000 "operator" ""]).escalation.level
      ≤ (applyOps { createdAt := 0 }
        [AlertOp.escOp 60000, AlertOp.escOp 120000, AlertOp.escOp 180000,
         AlertOp.resolveOp 240000 "operator" ""]).escalation.maxEscalationLevel
    ∧ (Alert.escalate ({ createdAt := 0 } : Alert) 60000).escalation.level
        = ({ createdAt := 0 } : Alert).escalation.level + 1
    ∧ (Alert.escalate ({ createdAt := 0 } : Alert) 60000).escalation.escalatedAt = some 60000 :=
  ⟨(escalation_level_bounded { createdAt := 0 }
      [AlertOp.escOp 60000, AlertOp.escOp 120000, AlertOp.escOp 180000,
       AlertOp.resolveOp 240000 "operator" ""] (by decide)).1,
   ((escalation_level_bounded { createdAt := 0 } [] (by decide)).2 60000 (by decide)).1,
   ((escalation_level_bounded { createdAt := 0 } [] (by decide)).2 60000 (by decide)).2⟩

end LifeLink
